import Mathlib

/-!
Verification of `generate-icons.py`: a script that resizes a single source
image (`speech-bubble.png`) into a fixed set of square PNG icons under an
`icons/` directory.

The embedding models the script's state as an explicit filesystem record,
its printed lines as a list of strings, and its calls into the image
library (decode, resize, save) and into `os.makedirs` as events recorded in
a trace.  The image-codec library (Pillow) is external to the repository;
per the specification it is a black box providing "decode image from path",
"resample to WxH with high-quality filter" and "encode/save as PNG", so its
possible failures are supplied by an environment `Env`, and resampling is
modelled as producing a raster of exactly the requested dimensions.
-/

set_option autoImplicit false

namespace GenerateIcons

/-- A decoded raster image: width and height in pixels. -/
structure Image where
  width : Nat
  height : Nat
  deriving DecidableEq, Repr

/-- Resampling filters offered by the image library; the source code uses
`Image.Resampling.LANCZOS`. -/
inductive Filter where
  | nearest
  | box
  | bilinear
  | hamming
  | bicubic
  | lanczos
  deriving DecidableEq, Repr

/-- Resampling to a requested width and height.  Modelled from the spec:
the image library is a black box whose resample primitive yields a raster
of exactly the requested dimensions, for any source image and any filter. -/
def Image.resize (_img : Image) (w h : Nat) (_f : Filter) : Image :=
  { width := w, height := h }

/-- Events recording the script's calls into `os` and the image library. -/
inductive Event where
  | mkdir (path : String)
  | decodeCall (path : String)
  | resizeCall (w h : Nat) (f : Filter)
  | saveCall (path : String) (format : String)
  deriving DecidableEq, Repr

/-- The filesystem as visible to the script: whether `speech-bubble.png`
exists, whether the `icons/` directory exists, the icon files
`icons/icon-<size>.png` keyed by size, and all other files (for example a
`manifest.json`), which the script never touches. -/
structure FS where
  sourceExists : Bool
  iconsDir : Bool
  icons : List (Nat × Image)
  otherFiles : List (String × String)
  deriving DecidableEq, Repr

/-- Environment supplying the outcomes of the fallible external calls:
`os.makedirs`, `Image.open` (decode), and per-size resize/save.  A `some e`
means that call raises an exception carrying message `e`. -/
structure Env where
  mkdirErr : Option String
  decode : Except String Image
  resizeErr : Nat → Option String
  saveErr : Nat → Option String

/-- State threaded through a run: the filesystem, the lines printed so far,
and the trace of external calls made so far. -/
structure RunState where
  fs : FS
  out : List String
  trace : List Event
  deriving DecidableEq, Repr

/-- Result of a Python call: normal return of a value, or an exception
propagating to the caller. -/
inductive PyResult (α : Type) where
  | ok : α → PyResult α
  | exn : String → PyResult α
  deriving DecidableEq, Repr

/-- Icon sizes required for PWA (`SIZES` in the source). -/
def SIZES : List Nat := [72, 96, 128, 144, 152, 192, 384, 512]

/-- Output path for one icon: `icons/icon-<size>.png`. -/
def iconPath (size : Nat) : String :=
  "icons/icon-" ++ toString size ++ ".png"

/-- Writing file `icons/icon-<n>.png`: the path now maps to exactly this
image; any previous file at the same path is replaced. -/
def setIcon (l : List (Nat × Image)) (n : Nat) (img : Image) : List (Nat × Image) :=
  (n, img) :: l.filter (fun p => p.1 != n)

/-- Number of files named `icons/icon-<n>.png` present. -/
def countIcon (l : List (Nat × Image)) (n : Nat) : Nat :=
  (l.filter (fun p => p.1 == n)).length

/-- Content of the file `icons/icon-<n>.png`, if present. -/
def lookupIcon (l : List (Nat × Image)) (n : Nat) : Option Image :=
  (l.find? (fun p => p.1 == n)).map Prod.snd

/-- The `for size in SIZES` loop body of `generate_icons`: resize the
decoded image to `(size, size)` with LANCZOS, save it as PNG, print a
progress line; any exception aborts the loop (to be caught by the caller's
`except`). -/
def processSizes (env : Env) (img : Image) :
    List Nat → RunState → Except String Unit × RunState
  | [], st => (Except.ok (), st)
  | size :: rest, st =>
    let st1 := { st with
      trace := st.trace ++ [Event.resizeCall size size Filter.lanczos] }
    match env.resizeErr size with
    | some e => (Except.error e, st1)
    | none =>
      let resized := Image.resize img size size Filter.lanczos
      let st2 := { st1 with
        trace := st1.trace ++ [Event.saveCall (iconPath size) "PNG"] }
      match env.saveErr size with
      | some e => (Except.error e, st2)
      | none =>
        processSizes env img rest
          { st2 with
            fs := { st2.fs with icons := setIcon st2.fs.icons size resized },
            out := st2.out ++ ["Generated: " ++ iconPath size] }

/-- The `generate_icons()` function of `generate-icons.py`, as a function
of the external-call environment and the initial filesystem.  Returns the
Python-level result (`None`, or a propagating exception) together with the
final filesystem, printed lines, and call trace. -/
def generate_icons (env : Env) (fs : FS) : PyResult Unit × RunState :=
  let st0 : RunState := { fs := fs, out := [], trace := [] }
  if fs.sourceExists = false then
    (PyResult.ok (), { st0 with out := ["Error: speech-bubble.png not found"] })
  else
    match env.mkdirErr with
    | some e => (PyResult.exn e, { st0 with trace := [Event.mkdir "icons"] })
    | none =>
      let st1 : RunState :=
        { fs := { fs with iconsDir := true }, out := [],
          trace := [Event.mkdir "icons", Event.decodeCall "speech-bubble.png"] }
      match env.decode with
      | Except.error e =>
        (PyResult.ok (), { st1 with out := ["Error generating icons: " ++ e] })
      | Except.ok img =>
        let st2 := { st1 with
          out := ["Source image: " ++ toString img.width ++ "x" ++ toString img.height] }
        match processSizes env img SIZES st2 with
        | (Except.ok _, st3) =>
          (PyResult.ok (), { st3 with
            out := st3.out ++
              ["\nAll icons generated successfully!",
               "Update manifest.json to reference these icons."] })
        | (Except.error e, st3) =>
          (PyResult.ok (), { st3 with
            out := st3.out ++ ["Error generating icons: " ++ e] })

/-- The message the `except` handler would print for failure `e`. -/
def processingReport (e : String) : String :=
  "Error generating icons: " ++ e

/-- The error lines `generate_icons` can print: the missing-source report
and the generic processing-failure report. -/
def isErrorReport (s : String) : Prop :=
  s = "Error: speech-bubble.png not found" ∨ ∃ e, s = processingReport e

/-- First exception raised inside the `for` loop over the given sizes, if
any: for each size in order, the resize exception, else the save
exception. -/
def loopFailure (env : Env) : List Nat → Option String
  | [] => none
  | size :: rest =>
    match env.resizeErr size with
    | some e => some e
    | none =>
      match env.saveErr size with
      | some e => some e
      | none => loopFailure env rest

/-- First exception raised inside the `try` block, if any: a decode
exception, else the first loop exception. -/
def tryFailure (env : Env) : Option String :=
  match env.decode with
  | Except.error e => some e
  | Except.ok _ => loopFailure env SIZES

/-- The sizes fully processed (resized and saved) before the first loop
exception, in order. -/
def doneSizes (env : Env) : List Nat → List Nat
  | [] => []
  | size :: rest =>
    match env.resizeErr size with
    | some _ => []
    | none =>
      match env.saveErr size with
      | some _ => []
      | none => size :: doneSizes env rest

/-- The sizes whose icons have been written when the `try` block ends,
successfully or not. -/
def writtenSizes (env : Env) : List Nat :=
  match env.decode with
  | Except.error _ => []
  | Except.ok _ => doneSizes env SIZES

/-- All per-size external calls succeed. -/
def allSizesOk (env : Env) : Prop :=
  ∀ s ∈ SIZES, env.resizeErr s = none ∧ env.saveErr s = none

instance (env : Env) : Decidable (allSizesOk env) := by
  unfold allSizesOk; infer_instance

/-- An environment in which every external call succeeds and the source
decodes to a 1024x1024 raster. -/
def envOK : Env :=
  { mkdirErr := none
    decode := Except.ok { width := 1024, height := 1024 }
    resizeErr := fun _ => none
    saveErr := fun _ => none }

/-- An initial filesystem: source present, no `icons/` directory yet, a
`manifest.json` among the other files. -/
def fs0 : FS :=
  { sourceExists := true
    iconsDir := false
    icons := []
    otherFiles := [("manifest.json", "\x7b\x7d")] }

/-- The two library-call events the loop makes for one size. -/
def sizeEvents (s : Nat) : List Event :=
  [Event.resizeCall s s Filter.lanczos, Event.saveCall (iconPath s) "PNG"]

/-- Icon files after writing `icons/icon-<s>.png` with content `s x s` for
each `s` in the list, in order. -/
def writeAll (ic : List (Nat × Image)) : List Nat → List (Nat × Image)
  | [] => ic
  | s :: rest => writeAll (setIcon ic s { width := s, height := s }) rest

/-- Trace of library calls made by the loop for the given sizes, in
order. -/
def eventsFor : List Nat → List Event
  | [] => []
  | s :: rest => sizeEvents s ++ eventsFor rest

/-- Everything a fully successful run prints after the source-size line. -/
def successOut (img : Image) : List String :=
  ("Source image: " ++ toString img.width ++ "x" ++ toString img.height) ::
    (SIZES.map (fun s => "Generated: " ++ iconPath s) ++
      ["\nAll icons generated successfully!",
       "Update manifest.json to reference these icons."])

/-- An environment whose decode raises (for example a corrupt source). -/
def envDecodeFail : Env :=
  { mkdirErr := none
    decode := Except.error "cannot identify image file"
    resizeErr := fun _ => none
    saveErr := fun _ => none }

/-- An environment in which saving `icons/icon-144.png` raises. -/
def envSaveFail : Env :=
  { mkdirErr := none
    decode := Except.ok { width := 1024, height := 1024 }
    resizeErr := fun _ => none
    saveErr := fun s => if s = 144 then some "disk full" else none }

/-- An environment whose source decodes to a non-square 300x100 raster. -/
def envWide : Env :=
  { mkdirErr := none
    decode := Except.ok { width := 300, height := 100 }
    resizeErr := fun _ => none
    saveErr := fun _ => none }

/-- A filesystem with the source file absent. -/
def fsNoSrc : FS :=
  { sourceExists := false
    iconsDir := false
    icons := []
    otherFiles := [("manifest.json", "\x7b\x7d")] }

theorem filter_eq_of_filter_ne (l : List (Nat × Image)) (n m : Nat) (hnm : ¬ m = n) :
    (l.filter (fun p => p.1 != n)).filter (fun p => p.1 == m) =
      l.filter (fun p => p.1 == m) := by
  have hnm' : ¬ n = m := fun h => hnm h.symm
  induction l with
  | nil => rfl
  | cons p l ih =>
    by_cases hp : p.1 = n
    · simp [List.filter_cons, hp, hnm, hnm', ih]
    · simp only [List.filter_cons]
      by_cases hq : p.1 = m
      · simp [hp, hq, hnm, hnm', ih]
      · simp [hp, hq, hnm, hnm', ih]

theorem find?_filter_ne (l : List (Nat × Image)) (n m : Nat) (hnm : ¬ m = n) :
    (l.filter (fun p => p.1 != n)).find? (fun p => p.1 == m) =
      l.find? (fun p => p.1 == m) := by
  have hnm' : ¬ n = m := fun h => hnm h.symm
  induction l with
  | nil => rfl
  | cons p l ih =>
    by_cases hp : p.1 = n
    · simp [List.filter_cons, hp, hnm, hnm', ih, List.find?_cons]
    · simp only [List.filter_cons]
      by_cases hq : p.1 = m
      · simp [hp, hq, hnm, hnm', List.find?_cons]
      · simp [hp, hq, hnm, hnm', List.find?_cons, ih]

theorem countIcon_setIcon_self (l : List (Nat × Image)) (n : Nat) (img : Image) :
    countIcon (setIcon l n img) n = 1 := by
  have hnil : (l.filter (fun p => p.1 != n)).filter (fun p => p.1 == n) = [] := by
    induction l with
    | nil => rfl
    | cons p l ih =>
      by_cases hp : p.1 = n
      · simp [List.filter_cons, hp, ih]
      · simp [List.filter_cons, hp, ih]
  simp [countIcon, setIcon, List.filter_cons, hnil]

theorem countIcon_setIcon_ne (l : List (Nat × Image)) (n m : Nat) (img : Image)
    (hnm : ¬ m = n) :
    countIcon (setIcon l n img) m = countIcon l m := by
  have hn : (n == m) = false := by
    simp
    intro h
    exact hnm h.symm
  simp [countIcon, setIcon, List.filter_cons, hn, filter_eq_of_filter_ne l n m hnm]

theorem lookupIcon_setIcon_self (l : List (Nat × Image)) (n : Nat) (img : Image) :
    lookupIcon (setIcon l n img) n = some img := by
  simp [lookupIcon, setIcon, List.find?_cons]

theorem lookupIcon_setIcon_ne (l : List (Nat × Image)) (n m : Nat) (img : Image)
    (hnm : ¬ m = n) :
    lookupIcon (setIcon l n img) m = lookupIcon l m := by
  have hn : (n == m) = false := by
    simp
    intro h
    exact hnm h.symm
  simp [lookupIcon, setIcon, List.find?_cons, hn, find?_filter_ne l n m hnm]

theorem countIcon_writeAll_not_mem (l : List Nat) (ic : List (Nat × Image)) (n : Nat)
    (h : ¬ n ∈ l) : countIcon (writeAll ic l) n = countIcon ic n := by
  induction l generalizing ic with
  | nil => rfl
  | cons s rest ih =>
    have hs : ¬ n = s := fun hh => h (hh ▸ List.mem_cons_self s rest)
    have hr : ¬ n ∈ rest := fun hh => h (List.mem_cons_of_mem s hh)
    rw [writeAll, ih _ hr, countIcon_setIcon_ne _ _ _ _ hs]

theorem countIcon_writeAll_mem (l : List Nat) (ic : List (Nat × Image)) (n : Nat)
    (h : n ∈ l) : countIcon (writeAll ic l) n = 1 := by
  induction l generalizing ic with
  | nil => cases h
  | cons s rest ih =>
    by_cases hr : n ∈ rest
    · exact ih _ hr
    · have hs : n = s := by
        rcases List.mem_cons.mp h with h' | h'
        · exact h'
        · exact absurd h' hr
      subst hs
      rw [writeAll, countIcon_writeAll_not_mem rest _ n hr,
        countIcon_setIcon_self]

theorem lookupIcon_writeAll_not_mem (l : List Nat) (ic : List (Nat × Image)) (n : Nat)
    (h : ¬ n ∈ l) : lookupIcon (writeAll ic l) n = lookupIcon ic n := by
  induction l generalizing ic with
  | nil => rfl
  | cons s rest ih =>
    have hs : ¬ n = s := fun hh => h (hh ▸ List.mem_cons_self s rest)
    have hr : ¬ n ∈ rest := fun hh => h (List.mem_cons_of_mem s hh)
    rw [writeAll, ih _ hr, lookupIcon_setIcon_ne _ _ _ _ hs]

theorem lookupIcon_writeAll_mem (l : List Nat) (ic : List (Nat × Image)) (n : Nat)
    (h : n ∈ l) : lookupIcon (writeAll ic l) n = some { width := n, height := n } := by
  induction l generalizing ic with
  | nil => cases h
  | cons s rest ih =>
    by_cases hr : n ∈ rest
    · exact ih _ hr
    · have hs : n = s := by
        rcases List.mem_cons.mp h with h' | h'
        · exact h'
        · exact absurd h' hr
      subst hs
      rw [writeAll, lookupIcon_writeAll_not_mem rest _ n hr,
        lookupIcon_setIcon_self]

theorem processSizes_ok (env : Env) (img : Image) (l : List Nat) (st : RunState)
    (h : ∀ s ∈ l, env.resizeErr s = none ∧ env.saveErr s = none) :
    processSizes env img l st =
      (Except.ok (),
       { fs := { st.fs with icons := writeAll st.fs.icons l },
         out := st.out ++ l.map (fun s => "Generated: " ++ iconPath s),
         trace := st.trace ++ eventsFor l }) := by
  induction l generalizing st with
  | nil => simp [processSizes, writeAll, eventsFor]
  | cons s rest ih =>
    obtain ⟨h1, h2⟩ := h s (List.mem_cons_self s rest)
    have hrest : ∀ s' ∈ rest, env.resizeErr s' = none ∧ env.saveErr s' = none :=
      fun s' hs' => h s' (List.mem_cons_of_mem s hs')
    rw [processSizes]
    simp only [h1, h2]
    rw [ih _ hrest]
    simp [writeAll, eventsFor, sizeEvents, Image.resize, List.append_assoc]

theorem processSizes_fail (env : Env) (img : Image) (l : List Nat) (st : RunState)
    (e : String) (h : loopFailure env l = some e) :
    ∃ tr, processSizes env img l st =
      (Except.error e,
       { fs := { st.fs with icons := writeAll st.fs.icons (doneSizes env l) },
         out := st.out ++ (doneSizes env l).map (fun s => "Generated: " ++ iconPath s),
         trace := st.trace ++ tr }) := by
  induction l generalizing st with
  | nil => simp [loopFailure] at h
  | cons s rest ih =>
    cases h1 : env.resizeErr s with
    | some e' =>
      have he : e' = e := by
        rw [loopFailure, h1] at h
        exact Option.some.inj h
      subst he
      refine ⟨[Event.resizeCall s s Filter.lanczos], ?_⟩
      rw [processSizes]
      simp [h1, doneSizes, writeAll]
    | none =>
      cases h2 : env.saveErr s with
      | some e' =>
        have he : e' = e := by
          rw [loopFailure, h1, h2] at h
          exact Option.some.inj h
        subst he
        refine ⟨sizeEvents s, ?_⟩
        rw [processSizes]
        simp [h1, h2, doneSizes, writeAll, sizeEvents, List.append_assoc]
      | none =>
        have h' : loopFailure env rest = some e := by
          rw [loopFailure, h1, h2] at h
          exact h
        rw [processSizes]
        simp only [h1, h2]
        obtain ⟨tr, htr⟩ := ih _ h'
        refine ⟨sizeEvents s ++ tr, ?_⟩
        rw [htr]
        simp [doneSizes, h1, h2, writeAll, eventsFor, sizeEvents, Image.resize,
          List.append_assoc]

theorem loopFailure_eq_none_iff (env : Env) (l : List Nat) :
    loopFailure env l = none ↔
      ∀ s ∈ l, env.resizeErr s = none ∧ env.saveErr s = none := by
  induction l with
  | nil => simp [loopFailure]
  | cons s rest ih =>
    cases h1 : env.resizeErr s with
    | some e => simp [loopFailure, h1]
    | none =>
      cases h2 : env.saveErr s with
      | some e => simp [loopFailure, h1, h2]
      | none => simp [loopFailure, h1, h2, ih]

/-- A fully successful run of `generate_icons`, characterized exactly. -/
theorem generate_icons_run_ok (env : Env) (fs : FS) (img : Image)
    (hsrc : fs.sourceExists = true) (hmk : env.mkdirErr = none)
    (hdec : env.decode = Except.ok img)
    (hall : ∀ s ∈ SIZES, env.resizeErr s = none ∧ env.saveErr s = none) :
    generate_icons env fs =
      (PyResult.ok (),
       { fs := { fs with iconsDir := true, icons := writeAll fs.icons SIZES },
         out := successOut img,
         trace := [Event.mkdir "icons", Event.decodeCall "speech-bubble.png"] ++
           eventsFor SIZES }) := by
  rw [generate_icons]
  simp only [hsrc, hmk, hdec]
  rw [processSizes_ok env img SIZES _ hall]
  simp [successOut, List.append_assoc]

/-- A run in which the `try` block raises, characterized: the exception is
caught, the report is the last line printed, and exactly the sizes
processed before the failure have been written. -/
theorem generate_icons_run_fail (env : Env) (fs : FS) (e : String)
    (hsrc : fs.sourceExists = true) (hmk : env.mkdirErr = none)
    (hfail : tryFailure env = some e) :
    ∃ pre tr, generate_icons env fs =
      (PyResult.ok (),
       { fs := { fs with iconsDir := true, icons := writeAll fs.icons (writtenSizes env) },
         out := pre ++ [processingReport e],
         trace := [Event.mkdir "icons", Event.decodeCall "speech-bubble.png"] ++
           tr }) := by
  obtain ⟨se, dir0, ic, of⟩ := fs
  simp only at hsrc
  subst hsrc
  cases hdec : env.decode with
  | error d =>
    have hd : d = e := by
      rw [tryFailure, hdec] at hfail
      exact Option.some.inj hfail
    subst hd
    refine ⟨[], [], ?_⟩
    simp [generate_icons, hmk, hdec, writtenSizes, writeAll, processingReport]
  | ok img =>
    have h' : loopFailure env SIZES = some e := by
      rw [tryFailure, hdec] at hfail
      exact hfail
    obtain ⟨tr, htr⟩ := processSizes_fail env img SIZES
      { fs := { sourceExists := true, iconsDir := true, icons := ic, otherFiles := of },
        out := ["Source image: " ++ toString img.width ++ "x" ++ toString img.height],
        trace := [Event.mkdir "icons", Event.decodeCall "speech-bubble.png"] } e h'
    refine ⟨("Source image: " ++ toString img.width ++ "x" ++ toString img.height) ::
      (doneSizes env SIZES).map (fun s => "Generated: " ++ iconPath s), tr, ?_⟩
    rw [generate_icons]
    simp only [hmk, hdec]
    rw [htr]
    simp [writtenSizes, hdec, processingReport, List.append_assoc]

theorem data_append_eq (a b : String) : (a ++ b).data = a.data ++ b.data := rfl

/-- Both error reports of the script start with the character `E`, so a
line starting otherwise is not an error report. -/
theorem not_errorReport_of_head (s : String) (h : ¬ s.data.head? = some 'E') :
    ¬ isErrorReport s := by
  intro hrep
  rcases hrep with h1 | ⟨e, h2⟩
  · subst h1
    exact h (by decide)
  · subst h2
    apply h
    rw [processingReport, data_append_eq]
    rfl

/-- Whenever `os.makedirs` does not itself raise, `generate_icons` returns
normally. -/
theorem generate_icons_fst_ok (env : Env) (fs : FS) (hmk : env.mkdirErr = none) :
    (generate_icons env fs).1 = PyResult.ok () := by
  cases hsrc : fs.sourceExists with
  | false => simp [generate_icons, hsrc]
  | true =>
    cases hfail : tryFailure env with
    | none =>
      cases hdec : env.decode with
      | error d =>
        rw [tryFailure, hdec] at hfail
        cases hfail
      | ok img =>
        have hall : ∀ s ∈ SIZES, env.resizeErr s = none ∧ env.saveErr s = none := by
          apply (loopFailure_eq_none_iff env SIZES).mp
          rw [tryFailure, hdec] at hfail
          exact hfail
        rw [generate_icons_run_ok env fs img hsrc hmk hdec hall]
    | some e =>
      obtain ⟨pre, tr, hrun⟩ := generate_icons_run_fail env fs e hsrc hmk hfail
      rw [hrun]

/-- C3: if the source file `speech-bubble.png` does not exist,
`generate_icons()` prints an error message naming the missing file, returns
normally to its caller, leaves the filesystem untouched (so no icon file is
written), and makes no external call (it halts before producing any
output). -/
theorem claim_C3_missing_source (env : Env) (fs : FS)
    (hsrc : fs.sourceExists = false) :
    generate_icons env fs =
      (PyResult.ok (),
       { fs := fs, out := ["Error: speech-bubble.png not found"], trace := [] }) := by
  simp [generate_icons, hsrc]

/-- Witness for C3 at a concrete filesystem with the source absent. -/
theorem claim_C3_missing_source_witness :
    fsNoSrc.sourceExists = false ∧
    generate_icons envOK fsNoSrc =
      (PyResult.ok (),
       { fs := fsNoSrc, out := ["Error: speech-bubble.png not found"],
         trace := [] }) :=
  ⟨rfl, claim_C3_missing_source envOK fsNoSrc rfl⟩

/-- C4: for every input state in which `os.makedirs` succeeds — source
present or absent, decode/resample/save succeeding or failing —
`generate_icons()` never propagates an exception to its caller. -/
theorem claim_C4_no_propagation (env : Env) (fs : FS)
    (hmk : env.mkdirErr = none) (e : String) :
    (generate_icons env fs).1 ≠ PyResult.exn e := by
  rw [generate_icons_fst_ok env fs hmk]
  intro h
  cases h

/-- Witness for C4 at a concrete failing-decode environment. -/
theorem claim_C4_no_propagation_witness :
    (generate_icons envDecodeFail fs0).1 ≠ PyResult.exn "cannot identify image file" :=
  claim_C4_no_propagation envDecodeFail fs0 rfl "cannot identify image file"

/-- C9: `generate_icons()` returns `None` on every path — missing source,
processing failure, and full success — so a caller receives no programmatic
indication of the outcome. -/
theorem claim_C9_returns_none (env : Env) (fs : FS) (hmk : env.mkdirErr = none) :
    (generate_icons env fs).1 = PyResult.ok () :=
  generate_icons_fst_ok env fs hmk

/-- Witness for C9 at a concrete environment whose decode raises. -/
theorem claim_C9_returns_none_witness :
    (generate_icons envDecodeFail fs0).1 = PyResult.ok () :=
  claim_C9_returns_none envDecodeFail fs0 rfl

/-- C10: whenever the source file exists (and `os.makedirs` succeeds), the
`icons/` directory is created before the source image is decoded: the first
two external calls are `os.makedirs` then decode, and after any run — even
one that fails during decode, resample, or save — the directory exists. -/
theorem claim_C10_dir_before_decode (env : Env) (fs : FS)
    (hsrc : fs.sourceExists = true) (hmk : env.mkdirErr = none) :
    (generate_icons env fs).2.fs.iconsDir = true ∧
    (generate_icons env fs).2.trace.take 2 =
      [Event.mkdir "icons", Event.decodeCall "speech-bubble.png"] := by
  cases hfail : tryFailure env with
  | some e =>
    obtain ⟨pre, tr, hrun⟩ := generate_icons_run_fail env fs e hsrc hmk hfail
    rw [hrun]
    exact ⟨rfl, rfl⟩
  | none =>
    cases hdec : env.decode with
    | error d =>
      rw [tryFailure, hdec] at hfail
      cases hfail
    | ok img =>
      have hall : ∀ s ∈ SIZES, env.resizeErr s = none ∧ env.saveErr s = none := by
        apply (loopFailure_eq_none_iff env SIZES).mp
        rw [tryFailure, hdec] at hfail
        exact hfail
      rw [generate_icons_run_ok env fs img hsrc hmk hdec hall]
      exact ⟨rfl, rfl⟩

/-- Witness for C10 at a concrete environment whose decode raises: the
directory exists even though no icon was produced. -/
theorem claim_C10_dir_before_decode_witness :
    (generate_icons envDecodeFail fs0).2.fs.iconsDir = true ∧
    (generate_icons envDecodeFail fs0).2.trace.take 2 =
      [Event.mkdir "icons", Event.decodeCall "speech-bubble.png"] :=
  claim_C10_dir_before_decode envDecodeFail fs0 rfl rfl

/-- C1: after a run of `generate_icons()` that returns normally and in
which no error is reported, for every size in
`[72, 96, 128, 144, 152, 192, 384, 512]` exactly one file
`icons/icon-<size>.png` exists, and its content is a square raster of
exactly that size. -/
theorem claim_C1_all_icons_square (env : Env) (fs : FS)
    (hret : (generate_icons env fs).1 = PyResult.ok ())
    (hnoerr : ∀ s ∈ (generate_icons env fs).2.out, ¬ isErrorReport s) :
    ∀ n ∈ SIZES,
      countIcon (generate_icons env fs).2.fs.icons n = 1 ∧
      lookupIcon (generate_icons env fs).2.fs.icons n =
        some { width := n, height := n } := by
  cases hsrc : fs.sourceExists with
  | false =>
    exfalso
    have hout : (generate_icons env fs).2.out =
        ["Error: speech-bubble.png not found"] := by
      simp [generate_icons, hsrc]
    refine hnoerr "Error: speech-bubble.png not found" ?_ (Or.inl rfl)
    rw [hout]
    exact List.mem_singleton.mpr rfl
  | true =>
    cases hmk : env.mkdirErr with
    | some e =>
      exfalso
      have h1 : (generate_icons env fs).1 = PyResult.exn e := by
        simp [generate_icons, hsrc, hmk]
      rw [h1] at hret
      cases hret
    | none =>
      cases hfail : tryFailure env with
      | some e =>
        exfalso
        obtain ⟨pre, tr, hrun⟩ := generate_icons_run_fail env fs e hsrc hmk hfail
        refine hnoerr (processingReport e) ?_ (Or.inr ⟨e, rfl⟩)
        rw [hrun]
        simp
      | none =>
        cases hdec : env.decode with
        | error d =>
          rw [tryFailure, hdec] at hfail
          cases hfail
        | ok img =>
          have hall : ∀ s ∈ SIZES, env.resizeErr s = none ∧ env.saveErr s = none := by
            apply (loopFailure_eq_none_iff env SIZES).mp
            rw [tryFailure, hdec] at hfail
            exact hfail
          rw [generate_icons_run_ok env fs img hsrc hmk hdec hall]
          intro n hn
          exact ⟨countIcon_writeAll_mem _ _ _ hn, lookupIcon_writeAll_mem _ _ _ hn⟩

/-- Witness for C1: a fully successful concrete run, checked at size 128. -/
theorem claim_C1_all_icons_square_witness :
    countIcon (generate_icons envOK fs0).2.fs.icons 128 = 1 ∧
    lookupIcon (generate_icons envOK fs0).2.fs.icons 128 =
      some { width := 128, height := 128 } := by
  refine claim_C1_all_icons_square envOK fs0 rfl ?_ 128 (by decide)
  intro s hs
  have hout : (generate_icons envOK fs0).2.out =
      ["Source image: 1024x1024",
       "Generated: icons/icon-72.png", "Generated: icons/icon-96.png",
       "Generated: icons/icon-128.png", "Generated: icons/icon-144.png",
       "Generated: icons/icon-152.png", "Generated: icons/icon-192.png",
       "Generated: icons/icon-384.png", "Generated: icons/icon-512.png",
       "\nAll icons generated successfully!",
       "Update manifest.json to reference these icons."] := by decide
  rw [hout] at hs
  simp only [List.mem_cons, List.not_mem_nil, or_false] at hs
  rcases hs with rfl | rfl | rfl | rfl | rfl | rfl | rfl | rfl | rfl | rfl | rfl <;>
    exact not_errorReport_of_head _ (by decide)

/-- C2: whenever the `try` block raises (during decode, resample, or
save), `generate_icons()` catches the exception and returns normally, the
last printed line is the generic report carrying the underlying error
message, exactly the sizes fully processed before the failure have their
icons written (and keep them — no cleanup), and the icon files of all other
sizes are exactly as before the run (no further size is processed). -/
theorem claim_C2_failure_caught (env : Env) (fs : FS) (e : String)
    (hsrc : fs.sourceExists = true) (hmk : env.mkdirErr = none)
    (hfail : tryFailure env = some e) :
    (generate_icons env fs).1 = PyResult.ok () ∧
    (generate_icons env fs).2.out.getLast? = some (processingReport e) ∧
    (∀ n ∈ writtenSizes env,
      countIcon (generate_icons env fs).2.fs.icons n = 1 ∧
      lookupIcon (generate_icons env fs).2.fs.icons n =
        some { width := n, height := n }) ∧
    (∀ n, n ∉ writtenSizes env →
      countIcon (generate_icons env fs).2.fs.icons n = countIcon fs.icons n ∧
      lookupIcon (generate_icons env fs).2.fs.icons n = lookupIcon fs.icons n) := by
  obtain ⟨pre, tr, hrun⟩ := generate_icons_run_fail env fs e hsrc hmk hfail
  rw [hrun]
  refine ⟨rfl, ?_, ?_, ?_⟩
  · simp
  · intro n hn
    exact ⟨countIcon_writeAll_mem _ _ _ hn, lookupIcon_writeAll_mem _ _ _ hn⟩
  · intro n hn
    exact ⟨countIcon_writeAll_not_mem _ _ _ hn, lookupIcon_writeAll_not_mem _ _ _ hn⟩

/-- Witness for C2: saving `icons/icon-144.png` raises `disk full`; the
icon for 96 (written before the failure) survives, size 512 is never
processed, and the report is the last line. -/
theorem claim_C2_failure_caught_witness :
    (generate_icons envSaveFail fs0).1 = PyResult.ok () ∧
    (generate_icons envSaveFail fs0).2.out.getLast? =
      some (processingReport "disk full") ∧
    countIcon (generate_icons envSaveFail fs0).2.fs.icons 96 = 1 ∧
    lookupIcon (generate_icons envSaveFail fs0).2.fs.icons 512 =
      lookupIcon fs0.icons 512 := by
  obtain ⟨h1, h2, h3, h4⟩ :=
    claim_C2_failure_caught envSaveFail fs0 "disk full" rfl rfl (by decide)
  exact ⟨h1, h2, (h3 96 (by decide)).1, (h4 512 (by decide)).2⟩

/-- C5: running `generate_icons()` a second time after a successful run
succeeds again — the pre-existing `icons/` directory causes no failure —
and every icon file is overwritten with the same content, so no duplicate
or stale file accumulates: the filesystem after the second run matches the
one after the first, file by file. -/
theorem claim_C5_idempotent (env : Env) (fs : FS) (img : Image)
    (hsrc : fs.sourceExists = true) (hmk : env.mkdirErr = none)
    (hdec : env.decode = Except.ok img) (hall : allSizesOk env) :
    (generate_icons env fs).2.fs.iconsDir = true ∧
    (generate_icons env (generate_icons env fs).2.fs).1 = PyResult.ok () ∧
    (∀ n ∈ SIZES,
      countIcon (generate_icons env (generate_icons env fs).2.fs).2.fs.icons n = 1) ∧
    (∀ n,
      countIcon (generate_icons env (generate_icons env fs).2.fs).2.fs.icons n =
        countIcon (generate_icons env fs).2.fs.icons n ∧
      lookupIcon (generate_icons env (generate_icons env fs).2.fs).2.fs.icons n =
        lookupIcon (generate_icons env fs).2.fs.icons n) := by
  have h1 := generate_icons_run_ok env fs img hsrc hmk hdec hall
  have hsrc1 : (generate_icons env fs).2.fs.sourceExists = true := by
    rw [h1]
    exact hsrc
  have h2 := generate_icons_run_ok env (generate_icons env fs).2.fs img hsrc1 hmk hdec hall
  refine ⟨by rw [h1], by rw [h2], ?_, ?_⟩
  · intro n hn
    rw [h2]
    exact countIcon_writeAll_mem _ _ _ hn
  · intro n
    by_cases hn : n ∈ SIZES
    · constructor
      · rw [h2, h1]
        rw [countIcon_writeAll_mem _ _ _ hn, countIcon_writeAll_mem _ _ _ hn]
      · rw [h2, h1]
        rw [lookupIcon_writeAll_mem _ _ _ hn, lookupIcon_writeAll_mem _ _ _ hn]
    · constructor
      · rw [h2]
        exact countIcon_writeAll_not_mem _ _ _ hn
      · rw [h2]
        exact lookupIcon_writeAll_not_mem _ _ _ hn

/-- Witness for C5 at a concrete successful environment, checked at
size 72 and at the non-icon key 999. -/
theorem claim_C5_idempotent_witness :
    (generate_icons envOK (generate_icons envOK fs0).2.fs).1 = PyResult.ok () ∧
    countIcon (generate_icons envOK (generate_icons envOK fs0).2.fs).2.fs.icons 72 =
      countIcon (generate_icons envOK fs0).2.fs.icons 72 ∧
    lookupIcon (generate_icons envOK (generate_icons envOK fs0).2.fs).2.fs.icons 999 =
      lookupIcon (generate_icons envOK fs0).2.fs.icons 999 := by
  obtain ⟨h1, h2, h3, h4⟩ :=
    claim_C5_idempotent envOK fs0 { width := 1024, height := 1024 } rfl rfl rfl
      (by decide)
  exact ⟨h2, (h4 72).1, (h4 999).2⟩

/-- C6: in a successful run the sizes are processed strictly in list
order — for each size, one resample of the source to that square size with
the LANCZOS filter (which is not nearest-neighbor), then one save of
`icons/icon-<size>.png` as PNG — and one progress line is printed per
successful write, in the same order. -/
theorem claim_C6_order_filter_progress (env : Env) (fs : FS) (img : Image)
    (hsrc : fs.sourceExists = true) (hmk : env.mkdirErr = none)
    (hdec : env.decode = Except.ok img) (hall : allSizesOk env) :
    (generate_icons env fs).2.trace =
      [Event.mkdir "icons", Event.decodeCall "speech-bubble.png"] ++
        eventsFor SIZES ∧
    (generate_icons env fs).2.out = successOut img ∧
    Filter.lanczos ≠ Filter.nearest := by
  rw [generate_icons_run_ok env fs img hsrc hmk hdec hall]
  exact ⟨rfl, rfl, by decide⟩

/-- Witness for C6 at a concrete successful environment. -/
theorem claim_C6_order_filter_progress_witness :
    (generate_icons envOK fs0).2.trace =
      [Event.mkdir "icons", Event.decodeCall "speech-bubble.png"] ++
        eventsFor SIZES ∧
    (generate_icons envOK fs0).2.out = successOut { width := 1024, height := 1024 } ∧
    Filter.lanczos ≠ Filter.nearest :=
  claim_C6_order_filter_progress envOK fs0 { width := 1024, height := 1024 }
    rfl rfl rfl (by decide)

/-- C7: for every source image, square or not, the resample primitive
applied at each requested size yields exactly the requested square
dimensions, and the run succeeds with every icon file forced to
`size x size` — the source's aspect ratio is irrelevant. -/
theorem claim_C7_aspect_ratio (env : Env) (fs : FS) (w h : Nat)
    (hsrc : fs.sourceExists = true) (hmk : env.mkdirErr = none)
    (hdec : env.decode = Except.ok { width := w, height := h })
    (hall : allSizesOk env) :
    (generate_icons env fs).1 = PyResult.ok () ∧
    ∀ s ∈ SIZES,
      Image.resize { width := w, height := h } s s Filter.lanczos =
        { width := s, height := s } ∧
      lookupIcon (generate_icons env fs).2.fs.icons s =
        some { width := s, height := s } := by
  rw [generate_icons_run_ok env fs { width := w, height := h } hsrc hmk hdec hall]
  exact ⟨rfl, fun s hs => ⟨rfl, lookupIcon_writeAll_mem _ _ _ hs⟩⟩

/-- Witness for C7 with a non-square 300x100 source, checked at size 192. -/
theorem claim_C7_aspect_ratio_witness :
    (generate_icons envWide fs0).1 = PyResult.ok () ∧
    lookupIcon (generate_icons envWide fs0).2.fs.icons 192 =
      some { width := 192, height := 192 } := by
  obtain ⟨h1, h2⟩ :=
    claim_C7_aspect_ratio envWide fs0 300 100 rfl rfl rfl (by decide)
  exact ⟨h1, (h2 192 (by decide)).2⟩

theorem saveCall_mem_eventsFor (l : List Nat) (p f : String)
    (h : Event.saveCall p f ∈ eventsFor l) : ∃ s, s ∈ l ∧ p = iconPath s := by
  induction l with
  | nil => cases h
  | cons s rest ih =>
    rw [eventsFor] at h
    rcases List.mem_append.mp h with h' | h'
    · simp only [sizeEvents, List.mem_cons, List.not_mem_nil, or_false] at h'
      rcases h' with h' | h'
      · cases h'
      · injection h' with hp hf
        exact ⟨s, List.mem_cons_self s rest, hp⟩
    · obtain ⟨t, ht, hp⟩ := ih h'
      exact ⟨t, List.mem_cons_of_mem s ht, hp⟩

/-- C8: after all sizes are processed successfully, the run ends with the
overall success message and the manifest reminder; the script itself
modifies no manifest: every other file is byte-for-byte unchanged, icon
files outside the size list are unchanged, and every save call in the run
targets some `icons/icon-<size>.png` with a size from the list. -/
theorem claim_C8_success_message_frame (env : Env) (fs : FS) (img : Image)
    (hsrc : fs.sourceExists = true) (hmk : env.mkdirErr = none)
    (hdec : env.decode = Except.ok img) (hall : allSizesOk env) :
    (∃ pre, (generate_icons env fs).2.out =
      pre ++ ["\nAll icons generated successfully!",
              "Update manifest.json to reference these icons."]) ∧
    (generate_icons env fs).2.fs.otherFiles = fs.otherFiles ∧
    (generate_icons env fs).2.fs.sourceExists = fs.sourceExists ∧
    (∀ n, n ∉ SIZES →
      countIcon (generate_icons env fs).2.fs.icons n = countIcon fs.icons n ∧
      lookupIcon (generate_icons env fs).2.fs.icons n = lookupIcon fs.icons n) ∧
    (∀ p f, Event.saveCall p f ∈ (generate_icons env fs).2.trace →
      ∃ s, s ∈ SIZES ∧ p = iconPath s) := by
  rw [generate_icons_run_ok env fs img hsrc hmk hdec hall]
  refine ⟨?_, rfl, rfl, ?_, ?_⟩
  · refine ⟨("Source image: " ++ toString img.width ++ "x" ++ toString img.height) ::
      SIZES.map (fun s => "Generated: " ++ iconPath s), ?_⟩
    simp [successOut]
  · intro n hn
    exact ⟨countIcon_writeAll_not_mem _ _ _ hn, lookupIcon_writeAll_not_mem _ _ _ hn⟩
  · intro p f hp
    simp only [List.mem_append, List.mem_cons, List.not_mem_nil, or_false] at hp
    rcases hp with (h' | h') | h'
    · cases h'
    · cases h'
    · exact saveCall_mem_eventsFor SIZES p f h'

/-- Witness for C8 at a concrete successful environment: the manifest entry
among the other files is untouched and the stray key 999 stays absent. -/
theorem claim_C8_success_message_frame_witness :
    (generate_icons envOK fs0).2.fs.otherFiles = fs0.otherFiles ∧
    lookupIcon (generate_icons envOK fs0).2.fs.icons 999 = lookupIcon fs0.icons 999 := by
  obtain ⟨h1, h2, h3, h4, h5⟩ :=
    claim_C8_success_message_frame envOK fs0 { width := 1024, height := 1024 }
      rfl rfl rfl (by decide)
  exact ⟨h2, (h4 999 (by decide)).2⟩

end GenerateIcons
